import Mathlib

/-!
Shallow embedding of the vm-wifi-fingerprints-api indoor-localization service
(`src/app/main.py`, `src/app/models.py`, `src/app/schemas.py`).

The persisted tables of `models.py` are embedded as lists of records inside a
`Db` state; the two request handlers `add_measurement` and `predict_room` of
`main.py` are embedded as pure state-passing functions.  HTTP-level outcomes
(HTTPException 400/409, the early error return, the unhandled ValueError, the
unbound-local crash of the algorithm dispatch) are embedded as constructors of
explicit outcome types.

The helper module `utils` imported by `main.py` is not part of the repository
sources; every function taken from it is marked `Modelled from the spec:` in
its doc comment and follows the specification text (sections 4.1-4.6) rather
than source code.
-/

set_option autoImplicit false
set_option linter.unusedVariables false

namespace WifiApi

/-- One router reading as it arrives in a request body (`schemas.py`,
`RouterData`: ssid, bssid, signal_strength). -/
structure RouterReading where
  ssid : String
  bssid : String
  signal_strength : Int
deriving DecidableEq, Repr

/-- Row of the `rooms` table (`models.py`, class `Room`); the optional
description/coordinates columns play no role in the handlers and are omitted. -/
structure Room where
  room_id : Nat
  room_name : String
deriving DecidableEq, Repr

/-- Row of the `measurements` table (`models.py`, class `Measurement`).
The stored TIMESTAMP is `datetime.utcfromtimestamp` of the request's integer
timestamp, an injective conversion, so it is embedded as the integer itself. -/
structure Measurement where
  measurement_id : Nat
  timestamp : Int
  device_id : String
  room_id : Nat
deriving DecidableEq, Repr

/-- Row of the `routers` table (`models.py`, class `Router`). -/
structure Router where
  router_id : Nat
  ssid : String
  bssid : String
deriving DecidableEq, Repr

/-- Row of the `measurement_router` join table (`models.py`,
class `MeasurementRouter`). -/
structure MeasurementRouter where
  measurement_id : Nat
  router_id : Nat
  signal_strength : Int
deriving DecidableEq, Repr

/-- The whole database state visible to the two handlers. -/
structure Db where
  rooms : List Room
  measurements : List Measurement
  routers : List Router
  measurement_routers : List MeasurementRouter
deriving DecidableEq, Repr

/-- Fresh primary key for an autoincrement column: one past the largest id in
use.  The handlers only rely on freshness, never on the concrete numbering. -/
def freshId (ids : List Nat) : Nat :=
  ids.foldl (fun a i => max a i) 0 + 1

/-- Request body of POST /measurements/add (`schemas.py`, `MeasurementData`).
All four fields are required by the pydantic model, so every value reaching the
handler has them populated. -/
structure MeasurementData where
  room_name : String
  device_id : String
  timestamp : Int
  routers : List RouterReading
deriving DecidableEq, Repr

/-- Outcome of the add_measurement handler: HTTP 400 "Missing data",
HTTP 409 duplicate, or the success message. -/
inductive AddOutcome where
  | missingData
  | duplicateMeasurement
  | ok
deriving DecidableEq, Repr

/-- The falsy-field check of `main.py` line 70:
`if not room_name or not device_id or not timestamp or not routers`.
Python truthiness makes this hold exactly for the empty string, the integer 0
and the empty list. -/
def missingCheck (data : MeasurementData) : Prop :=
  data.room_name = "" ∨ data.device_id = "" ∨ data.timestamp = 0 ∨ data.routers = []

instance (data : MeasurementData) : Decidable (missingCheck data) := by
  unfold missingCheck; infer_instance

/-- One iteration of the router loop of `add_measurement` (`main.py` lines
97-117): skip falsy bssids (`signal_strength is None` can never hold for the
pydantic `int` field), find or create the router row, then stage a
measurement_router row; the trailing commit makes all staged rows durable. -/
def addRouterReading (mid : Nat) (db : Db) (r : RouterReading) : Db :=
  if r.bssid = "" then db
  else
    match db.routers.find? (fun q => q.bssid == r.bssid) with
    | some q =>
        { db with measurement_routers :=
            db.measurement_routers ++ [⟨mid, q.router_id, r.signal_strength⟩] }
    | none =>
        let rid := freshId (db.routers.map Router.router_id)
        { db with
            routers := db.routers ++ [⟨rid, r.ssid, r.bssid⟩],
            measurement_routers :=
              db.measurement_routers ++ [⟨mid, rid, r.signal_strength⟩] }

/-- Lines 74-79 of `main.py`: look the room up by name and, when absent,
create and commit it immediately (before the duplicate check runs). -/
def roomUpsert (db : Db) (name : String) : Db :=
  match db.rooms.find? (fun r => r.room_name == name) with
  | some _ => db
  | none =>
      { db with rooms :=
          db.rooms ++ [⟨freshId (db.rooms.map Room.room_id), name⟩] }

/-- The duplicate check of `main.py` lines 83-84: a stored measurement with the
same device_id and (converted) timestamp already exists. -/
def duplicateExists (db : Db) (data : MeasurementData) : Prop :=
  ∃ m ∈ db.measurements,
    m.device_id = data.device_id ∧ m.timestamp = data.timestamp

instance (db : Db) (data : MeasurementData) : Decidable (duplicateExists db data) := by
  unfold duplicateExists; infer_instance

/-- Lines 88-119 of `main.py` on the non-duplicate path: insert and commit the
measurement row, then the measurement_router rows.  The `room` row is the one
found after the upsert (the `none` fallback is unreachable: the upsert just
inserted it). -/
def commitMeasurement (db1 : Db) (data : MeasurementData) : Db :=
  let room :=
    match db1.rooms.find? (fun r => r.room_name == data.room_name) with
    | some r => r
    | none => ⟨0, data.room_name⟩
  let mid := freshId (db1.measurements.map Measurement.measurement_id)
  let db2 :=
    { db1 with measurements :=
        db1.measurements ++ [⟨mid, data.timestamp, data.device_id, room.room_id⟩] }
  data.routers.foldl (addRouterReading mid) db2

/-- The add_measurement handler (`main.py` lines 62-121).  Returns the database
state left behind (commits already performed survive a later HTTPException)
together with the HTTP outcome. -/
def add_measurement (db : Db) (data : MeasurementData) : Db × AddOutcome :=
  if missingCheck data then (db, .missingData)
  else
    let db1 := roomUpsert db data.room_name
    if duplicateExists db1 data then (db1, .duplicateMeasurement)
    else (commitMeasurement db1 data, .ok)

/-! ### Prediction pipeline (`main.py` lines 123-223)

The field names and defaults follow `schemas.py` (`PredictData`); floats are
embedded as rationals. -/

/-- Request body of POST /measurements/predict (`schemas.py`, `PredictData`).
The `ignore_measurements: Optional[List[int]] = None` field is embedded as a
list, `[]` standing for both `None` and the empty list (the handler's guard
`if ignore_measurements and ... in ignore_measurements` treats them alike). -/
structure PredictData where
  routers : List RouterReading
  ignore_measurements : List Nat
  use_remove_unreceived_bssids : Bool
  handle_missing_values_strategy : String
  router_selection : String
  router_presence_threshold : Rat
  value_scaling_strategy : String
  router_rssi_threshold : Int
  algorithm : String
  k_value : Nat
  weights : String
  n_estimators : Nat
  c_value : Rat
  gamma_value : Rat
  max_depth : Option Nat
deriving DecidableEq, Repr

/-- One row of the flat join built by the loop of `main.py` lines 153-169. -/
structure RawRow where
  measurement_id : Nat
  room_id : Nat
  bssid : String
  ssid : String
  signal_strength : Int
deriving DecidableEq, Repr

/-- One fingerprint record: a sample's room label together with its
(bssid, ssid, signal_strength) readings (spec section 3, FingerprintRecord;
the ssid is kept alongside because the network-name filter needs it). -/
structure FingerprintRecord where
  room_id : Nat
  readings : List (String × String × Int)
deriving DecidableEq, Repr

/-- The rows the handler collects for one measurement (`main.py` lines
158-169): every measurement_router row of the measurement joined with its
router.  A router row missing for a referenced router_id would crash the
source (`router_info.bssid` on `None`); the embedding totalizes that
unreachable case with an empty router, never exercised on stores satisfying
the foreign-key constraints of `models.py`. -/
def measurementRows (db : Db) (m : Measurement) : List RawRow :=
  (db.measurement_routers.filter (fun mr => mr.measurement_id == m.measurement_id)).map
    (fun mr =>
      let ri := (db.routers.find? (fun r => r.router_id == mr.router_id)).getD ⟨0, "", ""⟩
      ⟨m.measurement_id, m.room_id, ri.bssid, ri.ssid, mr.signal_strength⟩)

/-- The full join of `main.py` lines 150-169, skipping measurements listed in
`ignore_measurements`. -/
def joinRows (db : Db) (ignore : List Nat) : List RawRow :=
  ((db.measurements.filter (fun m => !(ignore.contains m.measurement_id))).map
    (measurementRows db)).flatten

/-- Modelled from the spec: `utils.process_received_data` is not under `src/`.
Spec section 3 defines the LiveScan as keyed by bssid with each bssid appearing
at most once; duplicate bssids in the request keep their first occurrence. -/
def process_received_data (routers : List RouterReading) : List RouterReading :=
  routers.foldl
    (fun acc r => if acc.any (fun q => q.bssid == r.bssid) then acc else acc ++ [r]) []

/-- Signal the live scan heard for a bssid, when any. -/
def liveSignal (received : List RouterReading) (b : String) : Option Int :=
  (received.find? (fun r => r.bssid == b)).map RouterReading.signal_strength

/-- Modelled from the spec: `utils.process_fingerprint_data` is not under
`src/`.  Spec section 4.1 (FingerprintAggregator): group the joined rows by
`measurement_id`, one FingerprintRecord per distinct measurement, carrying its
room_id and its readings; grouping is by order of first appearance. -/
def process_fingerprint_data (rows : List RawRow) : List FingerprintRecord :=
  let ids := rows.foldl
    (fun acc r => if acc.contains r.measurement_id then acc else acc ++ [r.measurement_id]) []
  ids.map (fun i =>
    let grp := rows.filter (fun r => r.measurement_id == i)
    ⟨((grp.head?).map RawRow.room_id).getD 0,
     grp.map (fun r => (r.bssid, r.ssid, r.signal_strength))⟩)

/-- Modelled from the spec: `utils.remove_unreceived_bssids` is not under
`src/`.  Spec section 4.2, unseen filter: retain within each record only
bssids that also appear in the live scan. -/
def remove_unreceived_bssids (rooms : List FingerprintRecord)
    (received : List RouterReading) : List FingerprintRecord :=
  rooms.map (fun fp =>
    { fp with readings := fp.readings.filter (fun t => received.any (fun q => q.bssid == t.1)) })

/-- Modelled from the spec: `utils.remove_non_eduroam_bssids` is not under
`src/`.  Spec section 4.2, network-name filter: retain only readings whose
ssid is the eduroam network name. -/
def remove_non_eduroam_bssids (rooms : List FingerprintRecord) :
    List FingerprintRecord :=
  rooms.map (fun fp =>
    { fp with readings := fp.readings.filter (fun t => t.2.1 == "eduroam") })

/-- Fraction of retained records in which a bssid appears (spec section 4.2). -/
def presenceFraction (rooms : List FingerprintRecord) (b : String) : Rat :=
  ((rooms.countP (fun fp => fp.readings.any (fun t => t.1 == b)) : Nat) : Rat)
    / ((rooms.length : Nat) : Rat)

/-- Modelled from the spec: `utils.remove_rare_routers` is not under `src/`.
Spec section 4.2, rarity filter: drop bssids whose presence fraction over the
retained records is strictly below the threshold. -/
def remove_rare_routers (rooms : List FingerprintRecord) (threshold : Rat) :
    List FingerprintRecord :=
  rooms.map (fun fp =>
    { fp with readings := fp.readings.filter (fun t => !(decide (presenceFraction rooms t.1 < threshold))) })

/-- Modelled from the spec: the ordered set (first appearance) of all bssids
still present in any record after filtering (spec section 4.3). -/
def mac_address_list (rooms : List FingerprintRecord) : List String :=
  rooms.foldl
    (fun acc fp => fp.readings.foldl
      (fun a t => if a.contains t.1 then a else a ++ [t.1]) acc) []

/-- Reading of a record for one bssid, `none` when the record did not hear it. -/
def recordSignal (fp : FingerprintRecord) (b : String) : Option Int :=
  (fp.readings.find? (fun t => t.1 == b)).map (fun t => t.2.2)

/-- Modelled from the spec: `utils.prepare_data` is not under `src/`.
Spec section 4.3 (FeatureMatrixBuilder): the Option-valued feature matrix with
one row per record and one column per entry of `mac_address_list`, the parallel
room-label vector, and the column list itself. -/
def prepare_data (rooms : List FingerprintRecord) :
    List (List (Option Int)) × List Nat × List String :=
  let macs := mac_address_list rooms
  (rooms.map (fun fp => macs.map (recordSignal fp)),
   rooms.map FingerprintRecord.room_id, macs)

/-- Total cell count of the feature matrix, the embedding of numpy's
`X.size` (`main.py` line 184). -/
def matSize (X : List (List (Option Int))) : Nat :=
  (X.map List.length).sum

/-- Modelled from the spec: the weak-signal sentinel is "the lowest possible
signal value"; its exact numeric constant is an open question of the spec
(section 9) and is fixed here as -100 dBm. -/
def weakSignalSentinel : Int := -100

/-- Modelled from the spec: `utils.handle_missing_values` is not under `src/`.
Spec section 4.4 (MissingValueImputer): strategy "use_received" fills a missing
training cell with the live reading for that column when the scan heard it,
otherwise with the weak-signal sentinel; every other strategy fills all missing
cells with the sentinel. -/
def handle_missing_values (X : List (List (Option Int))) (macs : List String)
    (received : List RouterReading) (strategy : String) : List (List Int) :=
  X.map (fun row =>
    (row.zip macs).map (fun c =>
      match c.1 with
      | some v => v
      | none =>
          if strategy = "use_received" then
            (liveSignal received c.2).getD weakSignalSentinel
          else weakSignalSentinel))

/-- Modelled from the spec: `utils.prepare_received_data` is not under `src/`.
Spec sections 4.3 and 4.4: the query vector over the training columns, with a
column unheard in the live scan resolved from the sentinel. -/
def prepare_received_data (received : List RouterReading) (macs : List String) :
    List Int :=
  macs.map (fun b => (liveSignal received b).getD weakSignalSentinel)

/-- Smallest cell of the (imputed) training matrix; the default for the
empty matrix is never reached behind the emptiness guard of line 184. -/
def matMin (X : List (List Int)) : Int :=
  X.flatten.foldl min (X.flatten.headD 0)

/-- Smallest entry of the query vector, with the same unreachable default. -/
def vecMin (v : List Int) : Int :=
  v.foldl min (v.headD 0)

/-- Modelled from the spec: `utils.handle_router_rssi_threshold` is not under
`src/`.  Spec section 4.5 (Threshold): any cell numerically weaker than the
threshold is clamped up to the threshold, identically on both matrices. -/
def handle_router_rssi_threshold (X : List (List Int)) (Xn : List Int)
    (t : Int) : List (List Int) × List Int :=
  (X.map (fun row => row.map (fun v => max v t)), Xn.map (fun v => max v t))

/-- Modelled from the spec: `utils.value_scaling` is not under `src/`.
Spec section 4.5 (Scaling): strategy "none" is the identity on both matrices;
the exact non-"none" formula is an open question of the spec (section 9) and is
fixed here as the spec's own example, shifting all values to be non-negative by
subtracting `min_rssi_value`, applied with the same parameter to both
matrices. -/
def value_scaling (X : List (List Int)) (Xn : List Int) (minRssi : Int)
    (strategy : String) : List (List Int) × List Int :=
  if strategy = "none" then (X, Xn)
  else (X.map (fun row => row.map (fun v => v - minRssi)),
        Xn.map (fun v => v - minRssi))

/-! ### Classifiers (spec section 4.6; `utils.knn`, `utils.random_forest`,
`utils.svm` are not under `src/`) -/

/-- Modelled from the spec: Sørensen distance between two non-negative vectors,
1 - 2·Σ min(xᵢ,yᵢ) / Σ(xᵢ+yᵢ); columns where both sides are zero contribute
nothing to either sum, and an all-zero denominator yields distance 0. -/
def sorensenDistance (x y : List Int) : Rat :=
  let num : Int := ((x.zip y).map (fun p => min p.1 p.2)).sum
  let den : Int := ((x.zip y).map (fun p => p.1 + p.2)).sum
  if den = 0 then 0 else 1 - 2 * ((num : Rat) / (den : Rat))

/-- Modelled from the spec: squared Euclidean distance.  The spec's standard
Euclidean distance orders neighbors identically (the square root is monotone);
the returned mean distance is represented over squared distances because the
embedding works in rationals. -/
def sqEuclideanDistance (x y : List Int) : Rat :=
  ((((x.zip y).map (fun p => (p.1 - p.2) * (p.1 - p.2))).sum : Int) : Rat)

/-- Insertion into a list of (distance, label) pairs sorted by distance. -/
def insertByDist (p : Rat × Nat) : List (Rat × Nat) → List (Rat × Nat)
  | [] => [p]
  | q :: t => if p.1 ≤ q.1 then p :: q :: t else q :: insertByDist p t

/-- Insertion sort of (distance, label) pairs by distance. -/
def sortByDist (l : List (Rat × Nat)) : List (Rat × Nat) :=
  l.foldr insertByDist []

/-- Modelled from the spec: vote weight of one neighbor, 1 in uniform mode and
1/(distance+ε) in distance-weighted mode; ε is not fixed by the spec and is
taken as 1/1000000. -/
def voteWeight (weights : String) (d : Rat) : Rat :=
  if weights = "distance" then 1 / (d + (1 : Rat) / 1000000) else 1

/-- Distinct elements of a list in order of first appearance. -/
def distinctLabels (ys : List Nat) : List Nat :=
  ys.foldl (fun a l => if a.contains l then a else a ++ [l]) []

/-- Modelled from the spec: `utils.knn` is not under `src/`.  Spec section 4.6:
compute the per-row distance to the query under the named metric, select the
`k` rows with smallest distance, predict by plurality vote (uniform or
distance-weighted), breaking score ties by smallest total distance among tied
labels, and return the predicted label with the mean distance of the selected
neighbors.  Returns a pair, with no third component. -/
def knn (X : List (List Int)) (Xn : List Int) (y : List Nat) (k : Nat)
    (metric : String) (weights : String) : Nat × Rat :=
  let dist := fun row =>
    if metric = "sorensen" then sorensenDistance row Xn else sqEuclideanDistance row Xn
  let chosen := (sortByDist ((X.map dist).zip y)).take k
  let score := fun l =>
    ((chosen.filter (fun p => p.2 == l)).map (fun p => voteWeight weights p.1)).sum
  let total := fun l => ((chosen.filter (fun p => p.2 == l)).map Prod.fst).sum
  let labels := distinctLabels (chosen.map Prod.snd)
  let best := labels.foldl
    (fun b l =>
      if score b < score l then l
      else if score l = score b ∧ total l < total b then l else b)
    (labels.headD 0)
  (best, (chosen.map Prod.fst).sum / ((chosen.length : Nat) : Rat))

/-- Label of largest multiplicity in the list, first appearance winning ties. -/
def pluralityLabel (ys : List Nat) : Nat :=
  (distinctLabels ys).foldl
    (fun b l => if ys.count b < ys.count l then l else b)
    ((distinctLabels ys).headD 0)

/-- Modelled from the spec: `utils.random_forest` is not under `src/` and the
learned ensemble predictor is not determined by the spec beyond its interface
(section 4.6): a predicted label together with distance = 1 - predicted-class
probability, and no third component.  The predictor is modelled as the
plurality training label with its empirical frequency as probability; no claim
depends on the learned predictor itself. -/
def random_forest (X : List (List Int)) (Xn : List Int) (y : List Nat)
    (nEstimators : Nat) (maxDepth : Option Nat) : Nat × Rat :=
  let l := pluralityLabel y
  (l, 1 - ((y.count l : Nat) : Rat) / ((y.length : Nat) : Rat))

/-- Modelled from the spec: `utils.svm` is not under `src/`.  Section 4.6 fixes
its interface: a predicted label, distance = 1 - predicted-class probability,
and the decision-function margin for the predicted class as third component.
The learned predictor and the margin value are not determined by the spec; they
are modelled as the plurality label, its empirical frequency, and the frequency
gap to the runner-up label; no claim depends on these numbers. -/
def svm (X : List (List Int)) (Xn : List Int) (y : List Nat)
    (c : Rat) (kernel : String) (gamma : Rat) : Nat × Rat × Rat :=
  let l := pluralityLabel y
  let freq := fun (m : Nat) => ((y.count m : Nat) : Rat) / ((y.length : Nat) : Rat)
  let others := y.filter (fun m => !(m == l))
  (l, 1 - freq l, freq l - (if others.isEmpty then 0 else freq (pluralityLabel others)))

/-! ### The predict_room handler (`main.py` lines 123-223) -/

/-- The response body of a successful prediction (`main.py` line 223). -/
structure Prediction where
  room_name : String
  distance : Rat
  optional_value : Rat
deriving DecidableEq, Repr

/-- Outcome of the predict_room handler.
`missingData` is the HTTPException 400 of line 131; `emptyTrainingData` the
early error return of line 185; `emptyQueryData` the ValueError of line 195;
`unboundPredictedRoom` the crash of line 214 when the algorithm dispatch of
lines 203-212 matches no branch and `predicted_room` is never assigned. -/
inductive PredictOutcome where
  | missingData
  | emptyTrainingData
  | emptyQueryData
  | unboundPredictedRoom
  | ok (p : Prediction)
deriving DecidableEq, Repr

/-- Room-name lookup of `main.py` lines 262-276: the first room row with the
given id, or the explicit "Unknown" label when none matches. -/
def handle_get_room_name_by_id (room_id : Nat) (db : Db) : String :=
  match db.rooms.find? (fun r => r.room_id == room_id) with
  | none => "Unknown"
  | some r => r.room_name

/-- The router-filter chain of `main.py` lines 173-180: the unseen filter when
`use_remove_unreceived_bssids` is set, then the network-name filter when
`router_selection` is eduroam, then the rarity filter when the presence
threshold is positive. -/
def filterStage (data : PredictData) (received : List RouterReading)
    (rooms0 : List FingerprintRecord) : List FingerprintRecord :=
  let rooms1 :=
    if data.use_remove_unreceived_bssids then remove_unreceived_bssids rooms0 received
    else rooms0
  let rooms2 :=
    if data.router_selection = "eduroam" then remove_non_eduroam_bssids rooms1
    else rooms1
  if data.router_presence_threshold > 0 then
    remove_rare_routers rooms2 data.router_presence_threshold
  else rooms2

/-- Aggregation and filtering for one request (`main.py` lines 149-180):
join, group into fingerprint records, then the filter chain. -/
def pipelineRooms (db : Db) (data : PredictData) : List FingerprintRecord :=
  filterStage data (process_received_data data.routers)
    (process_fingerprint_data (joinRows db data.ignore_measurements))

/-- The conditioning of `main.py` lines 189-192: `min_rssi_value` is the
minimum over the imputed training matrix and the query vector, computed before
the threshold transform; the threshold runs next and the scaling last, with
that one `min_rssi_value` passed for both matrices. -/
def conditionStage (X : List (List Int)) (Xn : List Int) (t : Int)
    (strategy : String) : List (List Int) × List Int :=
  let min_rssi_value := min (matMin X) (vecMin Xn)
  let p := handle_router_rssi_threshold X Xn t
  value_scaling p.1 p.2 min_rssi_value strategy

/-- The tail of the handler from line 194 on: the empty-query guard, then the
string-keyed algorithm dispatch of lines 201-212 (initializing
`optional_value = -1`, overwritten only by the two svm branches, and falling
through unassigned for any other name), then the room-name lookup and the
response of lines 214-223. -/
def classifyStage (db : Db) (data : PredictData) (X : List (List Int))
    (y : List Nat) (Xn : List Int) : PredictOutcome :=
  if Xn.length = 0 then .emptyQueryData
  else
    let r : Option (Nat × Rat × Rat) :=
      if data.algorithm = "knn_sorensen" then
        let q := knn X Xn y data.k_value "sorensen" data.weights
        some (q.1, q.2, -1)
      else if data.algorithm = "knn_euclidean" then
        let q := knn X Xn y data.k_value "euclidean" data.weights
        some (q.1, q.2, -1)
      else if data.algorithm = "random_forest" then
        let q := random_forest X Xn y data.n_estimators data.max_depth
        some (q.1, q.2, -1)
      else if data.algorithm = "svm_linear" then
        some (svm X Xn y data.c_value "linear" data.gamma_value)
      else if data.algorithm = "svm_rbf" then
        some (svm X Xn y data.c_value "rbf" data.gamma_value)
      else none
    match r with
    | none => .unboundPredictedRoom
    | some q => .ok ⟨handle_get_room_name_by_id q.1 db, q.2.1, q.2.2⟩

/-- The predict_room handler (`main.py` lines 123-223): the empty-routers
guard of line 129, aggregation and filtering, the empty-training guard of
line 184, imputation, query-vector construction, conditioning, and the
classify tail. -/
def predict_room (db : Db) (data : PredictData) : PredictOutcome :=
  if data.routers = [] then .missingData
  else
    let received := process_received_data data.routers
    let pd := prepare_data (pipelineRooms db data)
    if matSize pd.1 = 0 ∨ pd.2.1.length = 0 then .emptyTrainingData
    else
      let Xi := handle_missing_values pd.1 pd.2.2 received data.handle_missing_values_strategy
      let Xn := prepare_received_data received pd.2.2
      let p := conditionStage Xi Xn data.router_rssi_threshold data.value_scaling_strategy
      classifyStage db data p.1 pd.2.1 p.2

/-! ### Concrete stores and requests used by the closed theorems -/

/-- Two rooms with one fingerprint sample each, as in end-to-end scenario A of
the spec (section 8): room 101 heard AA at -40 and BB at -60, room 102 heard
AA at -80 and BB at -45. -/
def exDb : Db :=
  ⟨[⟨1, "101"⟩, ⟨2, "102"⟩],
   [⟨1, 1000, "dev", 1⟩, ⟨2, 2000, "dev", 2⟩],
   [⟨1, "eduroam", "AA"⟩, ⟨2, "eduroam", "BB"⟩],
   [⟨1, 1, -40⟩, ⟨1, 2, -60⟩, ⟨2, 1, -80⟩, ⟨2, 2, -45⟩]⟩

/-- A store with no rows at all. -/
def emptyDb : Db := ⟨[], [], [], []⟩

/-- A live scan close to room 101's sample, with the request defaults of
`schemas.py` except `k_value = 1` (scenario A of spec section 8). -/
def exReq : PredictData :=
  ⟨[⟨"eduroam", "AA", -42⟩, ⟨"eduroam", "BB", -58⟩],
   [], true, "use_received", "all", 0, "none", -100, "knn_euclidean", 1,
   "uniform", 300, 1, 1, none⟩

/-! ### Claim theorems -/

/-- C8: the room-name lookup resolves an identifier with no matching room row
to the explicit "Unknown" label, and returns the matching row's name when one
exists; it is a total function with no failure outcome, so an unknown room
never aborts a prediction. -/
theorem c8_room_name_lookup (db : Db) (i : Nat) :
    (db.rooms.find? (fun r => r.room_id == i) = none →
      handle_get_room_name_by_id i db = "Unknown")
    ∧ (∀ r, db.rooms.find? (fun r => r.room_id == i) = some r →
      handle_get_room_name_by_id i db = r.room_name) := by
  constructor
  · intro h
    unfold handle_get_room_name_by_id
    rw [h]
  · intro r h
    unfold handle_get_room_name_by_id
    rw [h]

/-- C8 witness: in the concrete store, id 7 has no room row and resolves to
"Unknown", while id 1 resolves to room "101". -/
theorem c8_room_name_witness :
    exDb.rooms.find? (fun r => r.room_id == 7) = none
    ∧ handle_get_room_name_by_id 7 exDb = "Unknown"
    ∧ handle_get_room_name_by_id 1 exDb = "101" :=
  ⟨by decide, (c8_room_name_lookup exDb 7).1 (by decide),
    (c8_room_name_lookup exDb 1).2 ⟨1, "101"⟩ (by decide)⟩

/-- C9: a timestamp equal to 0 makes the falsy-field check of line 70 fire, so
the request is rejected with HTTP 400 "Missing data" and the store is left
untouched; and that check rejects with "Missing data" exactly the requests
with a falsy field: empty room_name, empty device_id, zero timestamp or empty
routers list. -/
theorem c9_zero_timestamp_missing_data (db : Db) (data : MeasurementData) :
    (data.timestamp = 0 → add_measurement db data = (db, .missingData))
    ∧ ((add_measurement db data).2 = .missingData ↔
        (data.room_name = "" ∨ data.device_id = "" ∨ data.timestamp = 0 ∨
          data.routers = [])) := by
  constructor
  · intro h
    unfold add_measurement
    rw [if_pos (show missingCheck data from Or.inr (Or.inr (Or.inl h)))]
  · constructor
    · intro h
      by_cases hm : missingCheck data
      · exact hm
      · exfalso
        simp only [add_measurement] at h
        rw [if_neg hm] at h
        by_cases hd : duplicateExists (roomUpsert db data.room_name) data
        · rw [if_pos hd] at h
          simp at h
        · rw [if_neg hd] at h
          simp at h
    · intro h
      unfold add_measurement
      rw [if_pos (show missingCheck data from h)]

/-- C9 witness: a concrete request whose timestamp is the Unix epoch is
rejected with the missing-data outcome and leaves the store unchanged. -/
theorem c9_zero_timestamp_witness :
    (⟨"101", "dev", 0, [⟨"eduroam", "AA", -40⟩]⟩ : MeasurementData).timestamp = 0
    ∧ add_measurement exDb ⟨"101", "dev", 0, [⟨"eduroam", "AA", -40⟩]⟩ =
        (exDb, .missingData) :=
  ⟨rfl, (c9_zero_timestamp_missing_data exDb _).1 rfl⟩

/-- C3 counterexample: a request with an empty routers list is rejected by the
guard of line 129 with the HTTP 400 "Missing data" outcome, which is neither
the empty-training-data nor the empty-query-data error the claim names. -/
theorem c3_empty_routers_counterexample :
    ¬(predict_room exDb { exReq with routers := [] } = .emptyTrainingData
      ∨ predict_room exDb { exReq with routers := [] } = .emptyQueryData)
    ∧ predict_room exDb { exReq with routers := [] } = .missingData := by
  exact ⟨by decide, by decide⟩

/-- C3 amended: a request with an empty routers list is rejected up front with
the missing-data error (HTTP 400 "Missing data") before any pipeline stage
runs, and never yields a silent default prediction. -/
theorem c3_empty_routers_rejected_up_front (db : Db) (data : PredictData)
    (h : data.routers = []) :
    predict_room db data = .missingData
    ∧ ∀ p, predict_room db data ≠ .ok p := by
  have he : predict_room db data = .missingData := by
    unfold predict_room
    rw [if_pos h]
  refine ⟨he, fun p hp => ?_⟩
  rw [he] at hp
  exact PredictOutcome.noConfusion hp

/-- C3 witness: the amended statement at the concrete empty-routers request. -/
theorem c3_empty_routers_witness :
    ({ exReq with routers := [] } : PredictData).routers = []
    ∧ predict_room exDb { exReq with routers := [] } = .missingData :=
  ⟨rfl, (c3_empty_routers_rejected_up_front exDb { exReq with routers := [] } rfl).1⟩

/-- C2: whenever the feature matrix built after aggregation and filtering has
zero cells or the label vector has zero entries (numpy's `X.size == 0 or
y.size == 0`, which covers zero rows as well as zero columns), the handler
stops with the empty-training-data error before the imputation, conditioning
or classifier stages run, and returns no prediction. -/
theorem c2_empty_training_stops_pipeline (db : Db) (data : PredictData)
    (h1 : data.routers ≠ [])
    (h2 : matSize (prepare_data (pipelineRooms db data)).1 = 0 ∨
          (prepare_data (pipelineRooms db data)).2.1.length = 0) :
    predict_room db data = .emptyTrainingData
    ∧ ∀ p, predict_room db data ≠ .ok p := by
  have he : predict_room db data = .emptyTrainingData := by
    unfold predict_room
    rw [if_neg h1]
    exact if_pos h2
  refine ⟨he, fun p hp => ?_⟩
  rw [he] at hp
  exact PredictOutcome.noConfusion hp

/-- C2 witness: against the empty store the aggregated feature matrix has no
cells and the concrete request fails with the empty-training-data error. -/
theorem c2_empty_training_witness :
    exReq.routers ≠ []
    ∧ matSize (prepare_data (pipelineRooms emptyDb exReq)).1 = 0
    ∧ predict_room emptyDb exReq = .emptyTrainingData :=
  ⟨by decide, by decide,
    (c2_empty_training_stops_pipeline emptyDb exReq (by decide) (Or.inl (by decide))).1⟩

/-- C4: when the query vector produced by the threshold and scaling transforms
is empty, the classify tail of the handler signals the empty-query-data error
(the ValueError of line 195) and neither runs a classifier nor produces a
prediction. -/
theorem c4_empty_query_fatal (db : Db) (data : PredictData)
    (Xi : List (List Int)) (y : List Nat) (Xn0 : List Int) (t : Int) (s : String)
    (h : (conditionStage Xi Xn0 t s).2.length = 0) :
    classifyStage db data (conditionStage Xi Xn0 t s).1 y (conditionStage Xi Xn0 t s).2 =
      .emptyQueryData
    ∧ ∀ p, classifyStage db data (conditionStage Xi Xn0 t s).1 y
        (conditionStage Xi Xn0 t s).2 ≠ .ok p := by
  have he : classifyStage db data (conditionStage Xi Xn0 t s).1 y
      (conditionStage Xi Xn0 t s).2 = .emptyQueryData := by
    unfold classifyStage
    rw [if_pos h]
  refine ⟨he, fun p hp => ?_⟩
  rw [he] at hp
  exact PredictOutcome.noConfusion hp

/-- C4 witness: a conditioned empty query vector at concrete inputs makes the
classify tail fail with the empty-query-data error. -/
theorem c4_empty_query_witness :
    (conditionStage [[-40]] [] (-100) "none").2.length = 0
    ∧ classifyStage emptyDb exReq (conditionStage [[-40]] [] (-100) "none").1 [1]
        (conditionStage [[-40]] [] (-100) "none").2 = .emptyQueryData :=
  ⟨by decide,
    (c4_empty_query_fatal emptyDb exReq [[-40]] [1] [] (-100) "none" (by decide)).1⟩

/-- The room upsert never touches the measurements table. -/
theorem roomUpsert_measurements (db : Db) (name : String) :
    (roomUpsert db name).measurements = db.measurements := by
  unfold roomUpsert
  split <;> rfl

/-- The room upsert never touches the measurement_router table. -/
theorem roomUpsert_measurement_routers (db : Db) (name : String) :
    (roomUpsert db name).measurement_routers = db.measurement_routers := by
  unfold roomUpsert
  split <;> rfl

/-- The room upsert never touches the routers table. -/
theorem roomUpsert_routers (db : Db) (name : String) :
    (roomUpsert db name).routers = db.routers := by
  unfold roomUpsert
  split <;> rfl

/-- C10: a request whose (device_id, timestamp) pair matches a stored
measurement fails with the HTTP 409 duplicate outcome and adds no measurement,
measurement_router or router row — but the room upsert of lines 74-79 has
already committed by then, so an unseen room_name leaves a fresh room row
behind even though the request fails, while a known room_name leaves the rooms
table unchanged. -/
theorem c10_duplicate_preserves_tables (db : Db) (data : MeasurementData)
    (h1 : ¬ missingCheck data)
    (h2 : ∃ m ∈ db.measurements,
      m.device_id = data.device_id ∧ m.timestamp = data.timestamp) :
    (add_measurement db data).2 = .duplicateMeasurement
    ∧ (add_measurement db data).1.measurements = db.measurements
    ∧ (add_measurement db data).1.measurement_routers = db.measurement_routers
    ∧ (add_measurement db data).1.routers = db.routers
    ∧ (db.rooms.find? (fun r => r.room_name == data.room_name) = none →
        (add_measurement db data).1.rooms =
          db.rooms ++ [⟨freshId (db.rooms.map Room.room_id), data.room_name⟩])
    ∧ (∀ r, db.rooms.find? (fun r => r.room_name == data.room_name) = some r →
        (add_measurement db data).1.rooms = db.rooms) := by
  have hd : duplicateExists (roomUpsert db data.room_name) data := by
    unfold duplicateExists
    rw [roomUpsert_measurements]
    exact h2
  have heq : add_measurement db data = (roomUpsert db data.room_name, .duplicateMeasurement) := by
    simp only [add_measurement]
    rw [if_neg h1, if_pos hd]
  refine ⟨by rw [heq], ?_, ?_, ?_, ?_, ?_⟩
  · rw [heq]
    exact roomUpsert_measurements db data.room_name
  · rw [heq]
    exact roomUpsert_measurement_routers db data.room_name
  · rw [heq]
    exact roomUpsert_routers db data.room_name
  · intro hf
    rw [heq]
    show (roomUpsert db data.room_name).rooms = _
    unfold roomUpsert
    rw [hf]
  · intro r hf
    rw [heq]
    show (roomUpsert db data.room_name).rooms = _
    unfold roomUpsert
    rw [hf]

/-- C10 witness: a concrete duplicate request naming an unseen room fails with
the duplicate outcome yet leaves a freshly committed room row behind. -/
theorem c10_duplicate_witness :
    (add_measurement exDb ⟨"NEW", "dev", 1000, [⟨"eduroam", "AA", -40⟩]⟩).2 =
      .duplicateMeasurement
    ∧ (add_measurement exDb ⟨"NEW", "dev", 1000, [⟨"eduroam", "AA", -40⟩]⟩).1.rooms =
        exDb.rooms ++ [⟨3, "NEW"⟩]
    ∧ (add_measurement exDb ⟨"NEW", "dev", 1000, [⟨"eduroam", "AA", -40⟩]⟩).1.measurements =
        exDb.measurements := by
  have h := c10_duplicate_preserves_tables exDb
    ⟨"NEW", "dev", 1000, [⟨"eduroam", "AA", -40⟩]⟩ (by decide)
    ⟨⟨1, 1000, "dev", 1⟩, by decide, rfl, rfl⟩
  refine ⟨h.1, ?_, h.2.1⟩
  rw [h.2.2.2.2.1 (by decide)]
  decide

/-- C5: the filter chain of lines 173-180 applies the enabled stages in the
fixed order unseen filter, then network-name filter, then rarity filter; and a
presence threshold of 0 fails the `> 0` guard, so the rarity stage is skipped
entirely and the records leave the chain exactly as the first two stages
produced them. -/
theorem c5_filter_chain_order (data : PredictData) (received : List RouterReading)
    (rooms0 : List FingerprintRecord) :
    (filterStage data received rooms0 =
      (if data.router_presence_threshold > 0 then
        (fun rs => remove_rare_routers rs data.router_presence_threshold) else id)
      ((if data.router_selection = "eduroam" then remove_non_eduroam_bssids else id)
      ((if data.use_remove_unreceived_bssids then
        (fun rs => remove_unreceived_bssids rs received) else id) rooms0)))
    ∧ (data.router_presence_threshold = 0 →
      filterStage data received rooms0 =
        (if data.router_selection = "eduroam" then remove_non_eduroam_bssids else id)
        ((if data.use_remove_unreceived_bssids then
          (fun rs => remove_unreceived_bssids rs received) else id) rooms0)) := by
  constructor
  · unfold filterStage
    by_cases h1 : data.use_remove_unreceived_bssids <;>
      by_cases h2 : data.router_selection = "eduroam" <;>
        by_cases h3 : data.router_presence_threshold > 0 <;>
          simp [h1, h2, h3]
  · intro h0
    have h3 : ¬ data.router_presence_threshold > 0 := by
      rw [h0]
      exact lt_irrefl 0
    unfold filterStage
    by_cases h1 : data.use_remove_unreceived_bssids <;>
      by_cases h2 : data.router_selection = "eduroam" <;>
        simp [h1, h2, h3]

/-- A one-record store of fingerprints used by the filter-chain witness. -/
def wRooms : List FingerprintRecord := [⟨1, [("AA", "eduroam", -40)]⟩]

/-- C5 witness: with the concrete request (threshold 0, unseen filter on,
selection "all") the chain reduces to the unseen stage alone and leaves the
record intact, the rarity stage never running. -/
theorem c5_filter_chain_witness :
    exReq.router_presence_threshold = 0
    ∧ filterStage exReq (process_received_data exReq.routers) wRooms = wRooms := by
  refine ⟨by decide, ?_⟩
  have h := (c5_filter_chain_order exReq (process_received_data exReq.routers) wRooms).2 (by decide)
  rw [h]
  decide

/-- C6: for every non-identity scaling strategy, both conditioned matrices are
the thresholded originals shifted by one and the same value, namely the
minimum over the imputed training matrix and the query vector as they stood
before the threshold transform ran — exhibiting that `min_rssi_value` is
computed once, before conditioning, from both matrices, and passed to the
scaling of both. -/
theorem c6_min_rssi_single_value (X : List (List Int)) (Xn : List Int) (t : Int)
    (s : String) (h : s ≠ "none") :
    conditionStage X Xn t s =
      (X.map (fun row => row.map (fun v => max v t - min (matMin X) (vecMin Xn))),
       Xn.map (fun v => max v t - min (matMin X) (vecMin Xn))) := by
  unfold conditionStage handle_router_rssi_threshold value_scaling
  simp [if_neg h, List.map_map, Function.comp_def]

/-- C6 witness: at concrete matrices and a non-identity strategy the
conditioned values are the thresholded originals minus the common minimum
-60, computed before thresholding. -/
theorem c6_min_rssi_witness :
    ("shift" : String) ≠ "none"
    ∧ conditionStage [[-50]] [-60] (-100) "shift" = ([[10]], [0]) := by
  refine ⟨by decide, ?_⟩
  rw [c6_min_rssi_single_value [[-50]] [-60] (-100) "shift" (by decide)]
  decide

/-- Branch-by-branch value of the classify tail when the query vector is
non-empty: one `.ok` response per recognized algorithm name, the sentinel -1
as optional value except in the two svm branches, and the unbound-local crash
for every other name. -/
theorem classifyStage_dispatch (db : Db) (data : PredictData)
    (X : List (List Int)) (y : List Nat) (Xn : List Int)
    (h0 : ¬ Xn.length = 0) :
    classifyStage db data X y Xn =
      (if data.algorithm = "knn_sorensen" then
        .ok ⟨handle_get_room_name_by_id (knn X Xn y data.k_value "sorensen" data.weights).1 db,
          (knn X Xn y data.k_value "sorensen" data.weights).2, -1⟩
      else if data.algorithm = "knn_euclidean" then
        .ok ⟨handle_get_room_name_by_id (knn X Xn y data.k_value "euclidean" data.weights).1 db,
          (knn X Xn y data.k_value "euclidean" data.weights).2, -1⟩
      else if data.algorithm = "random_forest" then
        .ok ⟨handle_get_room_name_by_id (random_forest X Xn y data.n_estimators data.max_depth).1 db,
          (random_forest X Xn y data.n_estimators data.max_depth).2, -1⟩
      else if data.algorithm = "svm_linear" then
        .ok ⟨handle_get_room_name_by_id (svm X Xn y data.c_value "linear" data.gamma_value).1 db,
          (svm X Xn y data.c_value "linear" data.gamma_value).2.1,
          (svm X Xn y data.c_value "linear" data.gamma_value).2.2⟩
      else if data.algorithm = "svm_rbf" then
        .ok ⟨handle_get_room_name_by_id (svm X Xn y data.c_value "rbf" data.gamma_value).1 db,
          (svm X Xn y data.c_value "rbf" data.gamma_value).2.1,
          (svm X Xn y data.c_value "rbf" data.gamma_value).2.2⟩
      else .unboundPredictedRoom) := by
  simp only [classifyStage]
  rw [if_neg h0]
  by_cases h1 : data.algorithm = "knn_sorensen" <;>
    by_cases h2 : data.algorithm = "knn_euclidean" <;>
      by_cases h3 : data.algorithm = "random_forest" <;>
        by_cases h4 : data.algorithm = "svm_linear" <;>
          by_cases h5 : data.algorithm = "svm_rbf" <;>
            simp [h1, h2, h3, h4, h5]

/-- An `.ok` response of the classify tail carries the sentinel -1 as optional
value whenever the algorithm is one of the non-svm names, and an optional
value other than -1 can only come from one of the two svm branches. -/
theorem classifyStage_ok_optional (db : Db) (data : PredictData)
    (X : List (List Int)) (y : List Nat) (Xn : List Int) (p : Prediction)
    (h : classifyStage db data X y Xn = .ok p) :
    ((data.algorithm = "knn_sorensen" ∨ data.algorithm = "knn_euclidean" ∨
        data.algorithm = "random_forest") → p.optional_value = -1)
    ∧ (p.optional_value ≠ -1 →
        data.algorithm = "svm_linear" ∨ data.algorithm = "svm_rbf") := by
  by_cases h0 : Xn.length = 0
  · rw [(by unfold classifyStage; rw [if_pos h0] :
      classifyStage db data X y Xn = .emptyQueryData)] at h
    exact absurd h (by simp)
  · rw [classifyStage_dispatch db data X y Xn h0] at h
    by_cases h1 : data.algorithm = "knn_sorensen"
    · rw [if_pos h1] at h
      injection h with h'
      constructor
      · intro _
        rw [← h']
      · intro hno
        exfalso
        apply hno
        rw [← h']
    · rw [if_neg h1] at h
      by_cases h2 : data.algorithm = "knn_euclidean"
      · rw [if_pos h2] at h
        injection h with h'
        constructor
        · intro _
          rw [← h']
        · intro hno
          exfalso
          apply hno
          rw [← h']
      · rw [if_neg h2] at h
        by_cases h3 : data.algorithm = "random_forest"
        · rw [if_pos h3] at h
          injection h with h'
          constructor
          · intro _
            rw [← h']
          · intro hno
            exfalso
            apply hno
            rw [← h']
        · rw [if_neg h3] at h
          by_cases h4 : data.algorithm = "svm_linear"
          · refine ⟨fun hin => ?_, fun _ => Or.inl h4⟩
            rcases hin with hh | hh | hh <;>
              exact absurd (hh.symm.trans h4) (by decide)
          · rw [if_neg h4] at h
            by_cases h5 : data.algorithm = "svm_rbf"
            · refine ⟨fun hin => ?_, fun _ => Or.inr h5⟩
              rcases hin with hh | hh | hh <;>
                exact absurd (hh.symm.trans h5) (by decide)
            · rw [if_neg h5] at h
              exact absurd h (by simp)

/-- C7: every successful prediction whose algorithm is one of the two
nearest-neighbor names or the ensemble name responds with the "not applicable"
sentinel -1 as optional value (the initialization of line 201, which those
branches never overwrite), and a response whose optional value differs from -1
can only have come from one of the two svm branches. -/
theorem c7_optional_value_sentinel (db : Db) (data : PredictData) (p : Prediction)
    (h : predict_room db data = .ok p) :
    ((data.algorithm = "knn_sorensen" ∨ data.algorithm = "knn_euclidean" ∨
        data.algorithm = "random_forest") → p.optional_value = -1)
    ∧ (p.optional_value ≠ -1 →
        data.algorithm = "svm_linear" ∨ data.algorithm = "svm_rbf") := by
  simp only [predict_room] at h
  by_cases hr : data.routers = []
  · rw [if_pos hr] at h
    exact absurd h (by simp)
  · rw [if_neg hr] at h
    by_cases he : matSize (prepare_data (pipelineRooms db data)).1 = 0 ∨
        (prepare_data (pipelineRooms db data)).2.1.length = 0
    · rw [if_pos he] at h
      exact absurd h (by simp)
    · rw [if_neg he] at h
      exact classifyStage_ok_optional db data _ _ _ p h

/-- C7 witness: the concrete scenario-A request with `knn_euclidean` succeeds
and its response carries the sentinel -1 as optional value. -/
theorem c7_optional_value_witness :
    predict_room exDb exReq = .ok ⟨"101", 8, -1⟩
    ∧ (⟨"101", 8, -1⟩ : Prediction).optional_value = -1 :=
  ⟨by with_unfolding_all decide,
    (c7_optional_value_sentinel exDb exReq ⟨"101", 8, -1⟩
        (by with_unfolding_all decide)).1
      (Or.inr (Or.inl rfl))⟩

/-- C1: the algorithm dispatch of lines 203-212 has no else branch, so a
request naming an unrecognized algorithm is not rejected before the pipeline
runs; aggregation, filtering, imputation, conditioning and the dispatch guard
evaluations all execute and the handler then crashes at line 214 reading the
never-assigned `predicted_room` — there is no UnsupportedAlgorithm error in
the code.  The second conjunct shows the very same store and request reach a
full prediction when the name is recognized, so the crash happens at the
dispatch, after every preprocessing stage has computed. -/
theorem c1_unsupported_algorithm_falls_through :
    predict_room exDb { exReq with algorithm := "unknown_algo" } = .unboundPredictedRoom
    ∧ predict_room exDb exReq = .ok ⟨"101", 8, -1⟩ :=
  ⟨by with_unfolding_all decide, by with_unfolding_all decide⟩

end WifiApi
